import Mathlib

/-!
Shallow embedding of the scoring and aggregation engine of the IRR
(Incident Readiness & Response Evaluator), `src/irr.py`.

Scores are modelled as rationals (`ℚ`); Python decimal literals such as
`0.85` become `85/100`.  Strings are Lean `String`s; the Python substring
test `needle in hay` is modelled by `pyContains`, and `str.lower()` by
`pyLower`.  Interactive yes/no answers are modelled as oracle functions
from the prompted name to the answers, which makes every scorer a pure
function of its inputs, exactly as the code computes once the answers are
fixed.
-/

/-- `charsStart needle hay` : `needle` is a prefix of `hay` (character lists). -/
def charsStart : List Char → List Char → Bool
  | [], _ => true
  | _ :: _, [] => false
  | a :: as, b :: bs => a == b && charsStart as bs

/-- `charsOccur needle hay` : `needle` occurs as a contiguous sublist of `hay`. -/
def charsOccur (needle : List Char) : List Char → Bool
  | [] => needle.isEmpty
  | b :: bs => charsStart needle (b :: bs) || charsOccur needle bs

/-- Python's `needle in hay` substring containment. -/
def pyContains (hay needle : String) : Bool :=
  charsOccur needle.data hay.data

/-- Python's `s.lower()`. -/
def pyLower (s : String) : String :=
  String.mk (s.data.map Char.toLower)

/-- `EnvironmentProfile` dataclass (the volatile `timestamp` field is omitted:
it never influences any score). -/
structure EnvironmentProfile where
  org_name : String
  platforms : List String
  endpoints_count : Nat
  network_segments : List String
  security_tools : List String
  log_sources : List String
  retention_days : Int
deriving DecidableEq

/-- `LogAnalysisResult` dataclass. -/
structure LogAnalysisResult where
  source_name : String
  available : Bool
  retention_compliance : Bool
  timestamp_consistency : ℚ
  volume_score : ℚ
  completeness_score : ℚ
  issues : List String
  recommendations : List String
deriving DecidableEq

/-- `PlaybookAnalysisResult` dataclass. -/
structure PlaybookAnalysisResult where
  playbook_name : String
  clarity_score : ℚ
  feasibility_score : ℚ
  completeness_score : ℚ
  ambiguous_steps : List String
  missing_elements : List String
  unrealistic_assumptions : List String
  recommendations : List String
deriving DecidableEq

/-- `LogAnalysisModule._analyze_log_source`. -/
def analyze_log_source (profile : EnvironmentProfile) (source : String) :
    LogAnalysisResult :=
  let available := true
  let retention_compliance := decide (profile.retention_days ≥ 90)
  let retentionIssues : List String :=
    if retention_compliance then [] else
      ["Retention period (" ++ toString profile.retention_days ++
        " days) below recommended 90 days"]
  let retentionRecs : List String :=
    if retention_compliance then [] else
      ["Increase log retention to at least 90 days"]
  let timestamp_consistency : ℚ :=
    if pyContains source "Windows" || pyContains source "Syslog" then 85/100
    else 75/100
  let tsIssues : List String :=
    if timestamp_consistency < 9/10 then
      ["Potential timestamp synchronization issues detected"] else []
  let tsRecs : List String :=
    if timestamp_consistency < 9/10 then
      ["Implement NTP synchronization across all log sources"] else []
  let volume_score : ℚ := 80/100
  let appHit := pyContains source "Application" || pyContains source "Custom"
  let completeness_score : ℚ := if appHit then 65/100 else 75/100
  let appIssues : List String :=
    if appHit then ["Application logs may lack critical security events"] else []
  let appRecs : List String :=
    if appHit then
      ["Enhance application logging to include authentication and authorization events"]
    else []
  { source_name := source
    available := available
    retention_compliance := retention_compliance
    timestamp_consistency := timestamp_consistency
    volume_score := volume_score
    completeness_score := completeness_score
    issues := retentionIssues ++ tsIssues ++ appIssues
    recommendations := retentionRecs ++ tsRecs ++ appRecs }

/-- `LogAnalysisModule.get_evidence_availability_score`. -/
def get_evidence_availability_score (results : List LogAnalysisResult) : ℚ :=
  match results with
  | [] => 0
  | _ =>
    ((results.map fun r =>
        (r.timestamp_consistency + r.volume_score + r.completeness_score) / 3).sum)
      / results.length

/-- `PlaybookModule._evaluate_playbook`. -/
def evaluate_playbook (playbook_name : String) : PlaybookAnalysisResult :=
  let malware := pyContains playbook_name "Malware" ||
    pyContains playbook_name "Ransomware"
  let phishing := pyContains playbook_name "Phishing"
  let breach := pyContains playbook_name "Data Breach"
  let clarity_score : ℚ :=
    75/100 - (if malware then 5/100 else 0) - (if phishing then 10/100 else 0)
  let feasibility_score : ℚ := 70/100 - (if breach then 15/100 else 0)
  let completeness_score : ℚ :=
    72/100 - (if malware then 8/100 else 0) - (if breach then 12/100 else 0)
  let ambiguous_steps : List String :=
    (if malware then
      ["Step 5: \x27Contain the threat\x27 lacks specific isolation procedures"]
     else []) ++
    (if phishing then
      ["Step 3: \x27Analyze email headers\x27 assumes technical expertise"]
     else [])
  let missingBase : List String :=
    (if malware then ["No guidance on encrypted backup restoration"] else []) ++
    (if phishing then ["Missing user communication templates"] else []) ++
    (if breach then
      ["Legal and regulatory notification procedures undefined"] else [])
  let missing_elements : List String :=
    if missingBase.isEmpty then ["Documentation requirements not specified"]
    else missingBase
  let unrealistic_assumptions : List String :=
    if breach then ["Assumes full network visibility and logging"] else []
  let recommendations : List String :=
    (if malware then
      ["Add detailed network isolation procedures with specific commands"]
     else []) ++
    (if phishing then
      ["Include step-by-step header analysis guide with examples"] else []) ++
    (if breach then
      ["Develop breach notification checklist with timelines"] else []) ++
    ["Conduct tabletop exercise to validate procedures",
     "Define clear roles and escalation criteria"]
  { playbook_name := playbook_name
    clarity_score := max 0 clarity_score
    feasibility_score := max 0 feasibility_score
    completeness_score := max 0 completeness_score
    ambiguous_steps := ambiguous_steps
    missing_elements := missing_elements
    unrealistic_assumptions := unrealistic_assumptions
    recommendations := recommendations }

/-- `PlaybookModule.get_playbook_effectiveness_score`. -/
def get_playbook_effectiveness_score
    (results : List PlaybookAnalysisResult) : ℚ :=
  match results with
  | [] => 0
  | _ =>
    ((results.map fun r =>
        (r.clarity_score + r.feasibility_score + r.completeness_score) / 3).sum)
      / results.length

/-- The five fixed policy names queried by `PolicyToolModule._evaluate_policies`. -/
def policies : List String :=
  ["Incident Response Policy", "Escalation Policy", "Communication Policy",
   "Data Handling Policy", "Access Control Policy"]

/-- `PolicyToolModule._evaluate_policies`.  The interactive yes/no answers are
an oracle `answer : policy name ↦ (exists, documented, tested)`.  Returns the
policy score together with the recommendations recorded while scoring. -/
def evaluate_policies (answer : String → Bool × Bool × Bool) :
    ℚ × List String :=
  let policy_scores : List ℚ := policies.map fun name =>
    let a := answer name
    if a.1 then
      1/2 + (if a.2.1 then 25/100 else 0) + (if a.2.2 then 25/100 else 0)
    else 0
  let recs : List String := (policies.map fun name =>
    let a := answer name
    if a.1 then
      if a.2.2 then [] else ["Conduct tabletop exercise for " ++ name]
    else ["Develop and document " ++ name]).flatten
  (match policy_scores with
   | [] => 0
   | _ => policy_scores.sum / policy_scores.length, recs)

/-- `PolicyToolModule._evaluate_tools`.  The answers are an oracle
`answer : tool name ↦ (operational, integrated)`. -/
def evaluate_tools (profile : Option EnvironmentProfile)
    (answer : String → Bool × Bool) : ℚ × List String :=
  match profile with
  | none => (0, [])
  | some p =>
    let tool_scores : List ℚ := p.security_tools.map fun tool =>
      (if (answer tool).1 then 1/2 else 0) +
        (if (answer tool).2 then 3/10 else 0) + 2/10
    let recs : List String := (p.security_tools.map fun tool =>
      if (answer tool).2 then [] else
        ["Integrate " ++ tool ++ " into centralized incident response platform"]).flatten
    (match tool_scores with
     | [] => 0
     | _ => tool_scores.sum / tool_scores.length, recs)

/-- `PolicyToolModule.get_policy_alignment_score`. -/
def get_policy_alignment_score (policy_score tool_score : ℚ) : ℚ :=
  (policy_score + tool_score) / 2

/-- A scenario definition as in `ScenarioModule.run_scenario_testing`
(the unused `complexity` field is omitted). -/
structure Scenario where
  name : String
  description : String
  required_logs : List String
  required_playbook : String

/-- The result dictionary built by `ScenarioModule._test_scenario`. -/
structure ScenarioResult where
  name : String
  description : String
  readiness_score : ℚ
  log_availability : ℚ
  playbook_match : Bool
  timeline_feasibility : ℚ
  gaps : List String
  strengths : List String

/-- The `log_coverage / len(required_logs)` fraction of
`ScenarioModule._test_scenario` (`0.0` when the requirement list is empty),
factored out of `test_scenario`. -/
def scenario_log_availability (scenario : Scenario)
    (logResults : List LogAnalysisResult) : ℚ :=
  let available_logs := (logResults.filter (·.available)).map (·.source_name)
  let required_logs := scenario.required_logs
  let matched := fun (log : String) =>
    available_logs.any fun al => pyContains (pyLower al) (pyLower log)
  let log_coverage : ℚ := (required_logs.filter matched).length
  match required_logs with
  | [] => 0
  | _ => log_coverage / required_logs.length

/-- `ScenarioModule._test_scenario`. -/
def test_scenario (scenario : Scenario)
    (logResults : List LogAnalysisResult)
    (pbResults : List PlaybookAnalysisResult) : ScenarioResult :=
  let available_logs := (logResults.filter (·.available)).map (·.source_name)
  let required_logs := scenario.required_logs
  let matched := fun (log : String) =>
    available_logs.any fun al => pyContains (pyLower al) (pyLower log)
  let log_availability : ℚ := scenario_log_availability scenario logResults
  let gapsLog : List String :=
    if log_availability < 1 then
      ["Missing critical logs: " ++
        String.intercalate ", " (required_logs.filter fun log => !matched log)]
    else []
  let strengthsLog : List String :=
    if log_availability < 1 then [] else ["All required log sources available"]
  let playbook_match :=
    pbResults.any fun p =>
      pyContains (pyLower p.playbook_name) (pyLower scenario.required_playbook)
  let gapsPb : List String :=
    if playbook_match then [] else
      ["No playbook for " ++ scenario.required_playbook]
  let strengthsPb : List String :=
    if playbook_match then
      ["Relevant playbook exists: " ++ scenario.required_playbook]
    else []
  let timeline_feasibility : ℚ :=
    if log_availability ≥ 8/10 ∧ playbook_match = true then 85/100
    else if log_availability ≥ 6/10 then 65/100
    else 40/100
  let readiness_score : ℚ :=
    log_availability * (4/10) +
      (if playbook_match then (1:ℚ) else 0) * (3/10) +
      timeline_feasibility * (3/10)
  { name := scenario.name
    description := scenario.description
    readiness_score := readiness_score
    log_availability := log_availability
    playbook_match := playbook_match
    timeline_feasibility := timeline_feasibility
    gaps := gapsLog ++ gapsPb
    strengths := strengthsLog ++ strengthsPb }

/-- The readiness classification `ReadinessLevel` enum. -/
inductive ReadinessLevel where
  | CRITICAL
  | LOW
  | MODERATE
  | HIGH
  | EXCELLENT
deriving DecidableEq

/-- The `.value` string of each `ReadinessLevel` member. -/
def ReadinessLevel.value : ReadinessLevel → String
  | .CRITICAL => "Critical"
  | .LOW => "Low"
  | .MODERATE => "Moderate"
  | .HIGH => "High"
  | .EXCELLENT => "Excellent"

/-- `ReadinessAssessment` dataclass (the volatile `timestamp` field is
omitted: it is filled from the wall clock and carries no score). -/
structure ReadinessAssessment where
  overall_score : ℚ
  readiness_level : String
  evidence_availability : ℚ
  timeline_reconstruction : ℚ
  playbook_effectiveness : ℚ
  policy_alignment : ℚ
  critical_gaps : List String
  high_priority_gaps : List String
  medium_priority_gaps : List String
  recommendations : List String

/-- `AssessmentModule._calculate_timeline_score`. -/
def calculate_timeline_score (profile : Option EnvironmentProfile)
    (evidence_score policy_score : ℚ) : ℚ :=
  let base_score := evidence_score * (7/10) + policy_score * (3/10)
  match profile with
  | some p => if p.retention_days < 90 then base_score * (85/100) else base_score
  | none => base_score

/-- `AssessmentModule._determine_readiness_level`. -/
def determine_readiness_level (score : ℚ) : ReadinessLevel :=
  if score ≥ 85/100 then .EXCELLENT
  else if score ≥ 75/100 then .HIGH
  else if score ≥ 60/100 then .MODERATE
  else if score ≥ 40/100 then .LOW
  else .CRITICAL

/-- `AssessmentModule._prioritize_gaps`.  `policy_score`, `tool_score` and
`bottlenecks` are the fields of the `PolicyToolModule`; `scenarios` the
results held by the `ScenarioModule`. -/
def prioritize_gaps (logResults : List LogAnalysisResult)
    (pbResults : List PlaybookAnalysisResult)
    (policy_score tool_score : ℚ) (bottlenecks : List String)
    (scenarios : List ScenarioResult) :
    List String × List String × List String :=
  let critical_gaps : List String :=
    (if get_evidence_availability_score logResults < 60/100 then
      ["Insufficient log coverage for effective incident investigation"]
     else []) ++
    (if get_playbook_effectiveness_score pbResults < 60/100 then
      ["Incident response playbooks lack clarity or completeness"]
     else []) ++
    (if policy_score < 60/100 then
      ["Security policies inadequate for effective incident response"]
     else [])
  let high_gaps : List String :=
    (logResults.filter fun r => !r.retention_compliance).map
      (fun r => r.source_name ++ ": Inadequate retention period") ++
    (pbResults.filter fun r => !r.unrealistic_assumptions.isEmpty).map
      (fun r => r.playbook_name ++ ": Contains unrealistic assumptions") ++
    (if tool_score < 70/100 then
      ["Security tools not fully integrated into response workflow"]
     else []) ++
    (match scenarios with
     | [] => []
     | _ =>
       if (scenarios.map (·.readiness_score)).sum / scenarios.length < 65/100 then
         ["Limited readiness for common incident scenarios"]
       else [])
  let medium_gaps : List String := bottlenecks
  (critical_gaps, high_gaps, medium_gaps)

/-- `AssessmentModule._generate_recommendations`.  `assessment` is the value
of `self.assessment` at call time: inside `generate_assessment` it is the
previously stored assessment (`none` on the first run), because the freshly
computed assessment is only assigned afterwards. -/
def generate_recommendations (profile : Option EnvironmentProfile)
    (logResults : List LogAnalysisResult)
    (pbResults : List PlaybookAnalysisResult)
    (policy_score tool_score : ℚ)
    (assessment : Option ReadinessAssessment) : List String :=
  let timeline_score : ℚ :=
    match assessment with
    | some a => a.timeline_reconstruction
    | none => 0
  let recommendations : List String :=
    (if get_evidence_availability_score logResults < 75/100 then
      ["Implement comprehensive logging across all critical systems",
       "Deploy centralized log management (SIEM) platform"]
     else []) ++
    (match profile with
     | some p =>
       if p.retention_days < 90 then
         ["Extend log retention to minimum 90 days (180 days recommended)"]
       else []
     | none => []) ++
    (if get_playbook_effectiveness_score pbResults < 70/100 then
      ["Conduct comprehensive playbook review and update cycle",
       "Schedule quarterly tabletop exercises to validate procedures"]
     else []) ++
    (if policy_score < 70/100 then
      ["Formalize incident response policies and procedures",
       "Establish clear escalation paths and approval thresholds"]
     else []) ++
    (if tool_score < 75/100 then
      ["Integrate security tools into unified incident response platform",
       "Implement SOAR capabilities for automated response actions"]
     else []) ++
    (if timeline_score < 70/100 then
      ["Improve log correlation and timestamp synchronization",
       "Deploy network traffic analysis (NTA) for comprehensive visibility"]
     else []) ++
    ["Establish 24/7 SOC coverage or engage MDR provider",
     "Conduct annual incident response capability assessment",
     "Develop incident response metrics and KPIs"]
  recommendations.take 15

/-- `AssessmentModule.generate_assessment`.  `prev` is the stored
`self.assessment` before this call (`none` on a fresh module). -/
def generate_assessment (profile : Option EnvironmentProfile)
    (logResults : List LogAnalysisResult)
    (pbResults : List PlaybookAnalysisResult)
    (policy_score tool_score : ℚ) (bottlenecks : List String)
    (scenarios : List ScenarioResult)
    (prev : Option ReadinessAssessment) : ReadinessAssessment :=
  let evidence_score := get_evidence_availability_score logResults
  let playbook_score := get_playbook_effectiveness_score pbResults
  let alignment := get_policy_alignment_score policy_score tool_score
  let timeline_score := calculate_timeline_score profile evidence_score alignment
  let overall_score :=
    evidence_score * (30/100) + playbook_score * (25/100) +
      alignment * (25/100) + timeline_score * (20/100)
  let readiness_level := determine_readiness_level overall_score
  let gaps := prioritize_gaps logResults pbResults policy_score tool_score
    bottlenecks scenarios
  let recommendations := generate_recommendations profile logResults pbResults
    policy_score tool_score prev
  { overall_score := overall_score
    readiness_level := readiness_level.value
    evidence_availability := evidence_score
    timeline_reconstruction := timeline_score
    playbook_effectiveness := playbook_score
    policy_alignment := alignment
    critical_gaps := gaps.1
    high_priority_gaps := gaps.2.1
    medium_priority_gaps := gaps.2.2
    recommendations := recommendations }

/-- A concrete environment profile (the interactive defaults of
`EnvironmentModule.collect_environment_data`), used as a sample input. -/
def sampleProfile : EnvironmentProfile :=
  { org_name := "My Organization"
    platforms := ["Windows", "Linux"]
    endpoints_count := 100
    network_segments := ["DMZ", "Internal"]
    security_tools := ["SIEM"]
    log_sources := ["Windows Event Logs", "Syslog"]
    retention_days := 90 }

/-- The assessment produced by the application flow: the log results come
from `analyze_log_source` over the environment's log sources, the playbook
results from `evaluate_playbook`, and the policy/tool scores from the
policy-tool module, all sharing one environment profile. -/
def assessment_from_modules (profile : EnvironmentProfile)
    (sources names : List String)
    (polAns : String → Bool × Bool × Bool) (toolAns : String → Bool × Bool)
    (bottlenecks : List String) (scenarios : List ScenarioResult)
    (prev : Option ReadinessAssessment) : ReadinessAssessment :=
  generate_assessment (some profile)
    (sources.map (analyze_log_source profile))
    (names.map evaluate_playbook)
    (evaluate_policies polAns).1
    (evaluate_tools (some profile) toolAns).1
    bottlenecks scenarios prev

theorem q_sum_div_length_le {l : List ℚ} {b : ℚ} (hne : l ≠ [])
    (h : ∀ x ∈ l, x ≤ b) : l.sum / l.length ≤ b := by
  have hl : (0 : ℚ) < l.length := by
    exact_mod_cast List.length_pos.mpr hne
  rw [div_le_iff₀ hl]
  calc l.sum ≤ l.length • b := List.sum_le_card_nsmul l b h
    _ = b * l.length := by rw [nsmul_eq_mul]; ring

theorem q_le_sum_div_length {l : List ℚ} {a : ℚ} (hne : l ≠ [])
    (h : ∀ x ∈ l, a ≤ x) : a ≤ l.sum / l.length := by
  have hl : (0 : ℚ) < l.length := by
    exact_mod_cast List.length_pos.mpr hne
  rw [le_div_iff₀ hl]
  calc a * l.length = l.length • a := by rw [nsmul_eq_mul]; ring
    _ ≤ l.sum := List.card_nsmul_le_sum l a h

/-- C6: the two aggregate scorers return `0.0` on an empty result
collection instead of failing. -/
theorem aggregates_empty_zero :
    get_evidence_availability_score [] = 0 ∧
    get_playbook_effectiveness_score [] = 0 :=
  ⟨rfl, rfl⟩

/-- C1 counterexample: on the default environment (whose retention is 90
days), `score_log_source "Windows Event Logs"` does NOT return an empty
issues list — the NTP/timestamp-synchronization issue is always appended
because `0.85 < 0.9`. -/
theorem windows_90_issue_present :
    sampleProfile.retention_days = 90 ∧
    (analyze_log_source sampleProfile "Windows Event Logs").issues ≠ [] := by
  refine ⟨rfl, ?_⟩
  norm_num [analyze_log_source, sampleProfile,
    (by decide : pyContains "Windows Event Logs" "Windows" = true),
    (by decide : pyContains "Windows Event Logs" "Application" = false),
    (by decide : pyContains "Windows Event Logs" "Custom" = false)]

/-- C1 (amended): for any environment with `retention_days = 90`,
`score_log_source "Windows Event Logs"` returns timestamp consistency
0.85, retention compliance, volume 0.80, completeness 0.75, and exactly
one issue (the timestamp-synchronization issue). -/
theorem windows_90_result (env : EnvironmentProfile)
    (h : env.retention_days = 90) :
    (analyze_log_source env "Windows Event Logs").timestamp_consistency
        = 85/100 ∧
    (analyze_log_source env "Windows Event Logs").retention_compliance
        = true ∧
    (analyze_log_source env "Windows Event Logs").volume_score = 80/100 ∧
    (analyze_log_source env "Windows Event Logs").completeness_score
        = 75/100 ∧
    (analyze_log_source env "Windows Event Logs").issues
        = ["Potential timestamp synchronization issues detected"] := by
  norm_num [analyze_log_source, h,
    (by decide : pyContains "Windows Event Logs" "Windows" = true),
    (by decide : pyContains "Windows Event Logs" "Application" = false),
    (by decide : pyContains "Windows Event Logs" "Custom" = false)]

theorem windows_90_result_witness :
    (analyze_log_source sampleProfile "Windows Event Logs").timestamp_consistency
        = 85/100 ∧
    (analyze_log_source sampleProfile "Windows Event Logs").retention_compliance
        = true ∧
    (analyze_log_source sampleProfile "Windows Event Logs").volume_score = 80/100 ∧
    (analyze_log_source sampleProfile "Windows Event Logs").completeness_score
        = 75/100 ∧
    (analyze_log_source sampleProfile "Windows Event Logs").issues
        = ["Potential timestamp synchronization issues detected"] :=
  windows_90_result sampleProfile rfl

/-- C3: the readiness-tier ladder is first-match-wins with closed-above
boundaries, and in particular 0.85 ↦ Excellent, 0.60 ↦ Moderate and
0.40 ↦ Low. -/
theorem readiness_level_ladder (s : ℚ) :
    (s ≥ 85/100 → determine_readiness_level s = .EXCELLENT) ∧
    (75/100 ≤ s ∧ s < 85/100 → determine_readiness_level s = .HIGH) ∧
    (60/100 ≤ s ∧ s < 75/100 → determine_readiness_level s = .MODERATE) ∧
    (40/100 ≤ s ∧ s < 60/100 → determine_readiness_level s = .LOW) ∧
    (s < 40/100 → determine_readiness_level s = .CRITICAL) ∧
    determine_readiness_level (85/100) = .EXCELLENT ∧
    determine_readiness_level (60/100) = .MODERATE ∧
    determine_readiness_level (40/100) = .LOW := by
  refine ⟨?_, ?_, ?_, ?_, ?_, ?_, ?_, ?_⟩
  · intro h
    rw [determine_readiness_level, if_pos h]
  · rintro ⟨h1, h2⟩
    rw [determine_readiness_level, if_neg (by linarith), if_pos h1]
  · rintro ⟨h1, h2⟩
    rw [determine_readiness_level, if_neg (by linarith), if_neg (by linarith),
      if_pos h1]
  · rintro ⟨h1, h2⟩
    rw [determine_readiness_level, if_neg (by linarith), if_neg (by linarith),
      if_neg (by linarith), if_pos h1]
  · intro h
    rw [determine_readiness_level, if_neg (by linarith), if_neg (by linarith),
      if_neg (by linarith), if_neg (by linarith)]
  · norm_num [determine_readiness_level]
  · norm_num [determine_readiness_level]
  · norm_num [determine_readiness_level]

theorem readiness_level_ladder_witness :
    determine_readiness_level 1 = .EXCELLENT :=
  (readiness_level_ladder 1).1 (by norm_num)

/-- C5: the scorers are deterministic — identical inputs give results that
agree in every field (none of the result records carries a timestamp). -/
theorem scorers_deterministic :
    (∀ (p₁ p₂ : EnvironmentProfile) (s₁ s₂ : String), p₁ = p₂ → s₁ = s₂ →
      analyze_log_source p₁ s₁ = analyze_log_source p₂ s₂) ∧
    (∀ n₁ n₂ : String, n₁ = n₂ →
      evaluate_playbook n₁ = evaluate_playbook n₂) ∧
    (∀ (sc₁ sc₂ : Scenario) (lr₁ lr₂ : List LogAnalysisResult)
        (pr₁ pr₂ : List PlaybookAnalysisResult),
      sc₁ = sc₂ → lr₁ = lr₂ → pr₁ = pr₂ →
      test_scenario sc₁ lr₁ pr₁ = test_scenario sc₂ lr₂ pr₂) := by
  refine ⟨?_, ?_, ?_⟩
  · intro p₁ p₂ s₁ s₂ hp hs
    rw [hp, hs]
  · intro n₁ n₂ hn
    rw [hn]
  · intro sc₁ sc₂ lr₁ lr₂ pr₁ pr₂ hsc hlr hpr
    rw [hsc, hlr, hpr]

theorem scorers_deterministic_witness :
    analyze_log_source sampleProfile "Syslog"
      = analyze_log_source sampleProfile "Syslog" :=
  scorers_deterministic.1 sampleProfile sampleProfile "Syslog" "Syslog" rfl rfl

/-- C7: a scenario with an empty required-log list gets
`log_availability = 0.0` (the guarded branch), with no division error. -/
theorem scenario_empty_required_logs (sc : Scenario)
    (lr : List LogAnalysisResult) (pr : List PlaybookAnalysisResult)
    (h : sc.required_logs = []) :
    (test_scenario sc lr pr).log_availability = 0 := by
  simp [test_scenario, scenario_log_availability, h]

theorem scenario_empty_required_logs_witness :
    (test_scenario ⟨"S", "d", [], "Ransomware Response"⟩ [] []).log_availability
      = 0 :=
  scenario_empty_required_logs ⟨"S", "d", [], "Ransomware Response"⟩ [] [] rfl

/-- C8: `score_playbook "Ransomware Response"` gives clarity 0.70,
feasibility 0.70, completeness 0.64, with non-empty ambiguous-step and
missing-element lists. -/
theorem ransomware_playbook_scores :
    (evaluate_playbook "Ransomware Response").clarity_score = 70/100 ∧
    (evaluate_playbook "Ransomware Response").feasibility_score = 70/100 ∧
    (evaluate_playbook "Ransomware Response").completeness_score = 64/100 ∧
    (evaluate_playbook "Ransomware Response").ambiguous_steps ≠ [] ∧
    (evaluate_playbook "Ransomware Response").missing_elements ≠ [] := by
  norm_num [evaluate_playbook, max_def,
    (by decide : pyContains "Ransomware Response" "Malware" = false),
    (by decide : pyContains "Ransomware Response" "Ransomware" = true),
    (by decide : pyContains "Ransomware Response" "Phishing" = false),
    (by decide : pyContains "Ransomware Response" "Data Breach" = false)]

/-- C9: the recommendation list of a generated assessment never exceeds 15
entries, whatever the inputs. -/
theorem recommendations_capped_at_15 :
    (∀ (prof : Option EnvironmentProfile) (lr : List LogAnalysisResult)
        (pr : List PlaybookAnalysisResult) (ps ts : ℚ)
        (a : Option ReadinessAssessment),
      (generate_recommendations prof lr pr ps ts a).length ≤ 15) ∧
    (∀ (prof : Option EnvironmentProfile) (lr : List LogAnalysisResult)
        (pr : List PlaybookAnalysisResult) (ps ts : ℚ)
        (bns : List String) (scns : List ScenarioResult)
        (prev : Option ReadinessAssessment),
      (generate_assessment prof lr pr ps ts bns scns prev).recommendations.length
        ≤ 15) := by
  constructor
  · intro prof lr pr ps ts a
    simp only [generate_recommendations, List.length_take]
    exact min_le_left _ _
  · intro prof lr pr ps ts bns scns prev
    simp only [generate_assessment, generate_recommendations, List.length_take]
    exact min_le_left _ _

theorem analyze_component_mean_bounds (p : EnvironmentProfile) (s : String) :
    11/15 ≤ ((analyze_log_source p s).timestamp_consistency +
        (analyze_log_source p s).volume_score +
        (analyze_log_source p s).completeness_score) / 3 ∧
    ((analyze_log_source p s).timestamp_consistency +
        (analyze_log_source p s).volume_score +
        (analyze_log_source p s).completeness_score) / 3 ≤ 4/5 := by
  simp only [analyze_log_source]
  split_ifs <;> norm_num

theorem evidence_map_bounds (p : EnvironmentProfile) (sources : List String)
    (hne : sources ≠ []) :
    11/15 ≤ get_evidence_availability_score
        (sources.map (analyze_log_source p)) ∧
    get_evidence_availability_score (sources.map (analyze_log_source p))
        ≤ 4/5 := by
  rcases sources with _ | ⟨s, ss⟩
  · exact absurd rfl hne
  · simp only [List.map_cons, get_evidence_availability_score]
    have hmapne :
        ((analyze_log_source p s :: ss.map (analyze_log_source p)).map fun r =>
          (r.timestamp_consistency + r.volume_score + r.completeness_score) / 3)
          ≠ [] := by simp
    have hlen :
        (((analyze_log_source p s :: ss.map (analyze_log_source p)).map fun r =>
            (r.timestamp_consistency + r.volume_score + r.completeness_score) / 3).length : ℚ)
          = ((analyze_log_source p s :: ss.map (analyze_log_source p)).length : ℚ) := by
      simp
    constructor
    · have := q_le_sum_div_length (a := 11/15) hmapne ?_
      · rwa [hlen] at this
      · intro x hx
        obtain ⟨r, hr, rfl⟩ := List.mem_map.mp hx
        rcases List.mem_cons.mp hr with h | h
        · subst h; exact (analyze_component_mean_bounds p s).1
        · obtain ⟨src, _, rfl⟩ := List.mem_map.mp h
          exact (analyze_component_mean_bounds p src).1
    · have := q_sum_div_length_le (b := 4/5) hmapne ?_
      · rwa [hlen] at this
      · intro x hx
        obtain ⟨r, hr, rfl⟩ := List.mem_map.mp hx
        rcases List.mem_cons.mp hr with h | h
        · subst h; exact (analyze_component_mean_bounds p s).2
        · obtain ⟨src, _, rfl⟩ := List.mem_map.mp h
          exact (analyze_component_mean_bounds p src).2

theorem evidence_map_bounds01 (p : EnvironmentProfile) (sources : List String) :
    0 ≤ get_evidence_availability_score (sources.map (analyze_log_source p)) ∧
    get_evidence_availability_score (sources.map (analyze_log_source p))
      ≤ 1 := by
  rcases hs : sources with _ | ⟨s, ss⟩
  · norm_num [get_evidence_availability_score]
  · obtain ⟨h1, h2⟩ := evidence_map_bounds p (s :: ss) (by simp)
    constructor <;> linarith

theorem playbook_component_bounds (n : String) :
    (0 ≤ (evaluate_playbook n).clarity_score ∧
      (evaluate_playbook n).clarity_score ≤ 1) ∧
    (0 ≤ (evaluate_playbook n).feasibility_score ∧
      (evaluate_playbook n).feasibility_score ≤ 1) ∧
    (0 ≤ (evaluate_playbook n).completeness_score ∧
      (evaluate_playbook n).completeness_score ≤ 1) := by
  simp only [evaluate_playbook]
  split_ifs <;> norm_num [max_def]

theorem effectiveness_map_bounds (names : List String) :
    0 ≤ get_playbook_effectiveness_score (names.map evaluate_playbook) ∧
    get_playbook_effectiveness_score (names.map evaluate_playbook) ≤ 1 := by
  rcases names with _ | ⟨n, ns⟩
  · norm_num [get_playbook_effectiveness_score]
  · simp only [List.map_cons, get_playbook_effectiveness_score]
    have hmapne :
        ((evaluate_playbook n :: ns.map evaluate_playbook).map fun r =>
          (r.clarity_score + r.feasibility_score + r.completeness_score) / 3)
          ≠ [] := by simp
    have hlen :
        (((evaluate_playbook n :: ns.map evaluate_playbook).map fun r =>
            (r.clarity_score + r.feasibility_score + r.completeness_score) / 3).length : ℚ)
          = ((evaluate_playbook n :: ns.map evaluate_playbook).length : ℚ) := by
      simp
    have hmem : ∀ x ∈ ((evaluate_playbook n :: ns.map evaluate_playbook).map fun r =>
        (r.clarity_score + r.feasibility_score + r.completeness_score) / 3),
        0 ≤ x ∧ x ≤ 1 := by
      intro x hx
      obtain ⟨r, hr, rfl⟩ := List.mem_map.mp hx
      have hb : (0 ≤ r.clarity_score ∧ r.clarity_score ≤ 1) ∧
          (0 ≤ r.feasibility_score ∧ r.feasibility_score ≤ 1) ∧
          (0 ≤ r.completeness_score ∧ r.completeness_score ≤ 1) := by
        rcases List.mem_cons.mp hr with h | h
        · subst h; exact playbook_component_bounds n
        · obtain ⟨m, _, rfl⟩ := List.mem_map.mp h
          exact playbook_component_bounds m
      obtain ⟨⟨c0, c1⟩, ⟨f0, f1⟩, ⟨p0, p1⟩⟩ := hb
      constructor <;> [linarith; linarith]
    constructor
    · have := q_le_sum_div_length (a := 0) hmapne (fun x hx => (hmem x hx).1)
      rwa [hlen] at this
    · have := q_sum_div_length_le (b := 1) hmapne (fun x hx => (hmem x hx).2)
      rwa [hlen] at this

theorem policy_item_bounds (a : Bool × Bool × Bool) :
    0 ≤ (if a.1 then (1:ℚ)/2 + (if a.2.1 then 25/100 else 0) +
          (if a.2.2 then 25/100 else 0) else 0) ∧
    (if a.1 then (1:ℚ)/2 + (if a.2.1 then 25/100 else 0) +
        (if a.2.2 then 25/100 else 0) else 0) ≤ 1 := by
  split_ifs <;> norm_num

theorem policy_score_bounds (answer : String → Bool × Bool × Bool) :
    0 ≤ (evaluate_policies answer).1 ∧ (evaluate_policies answer).1 ≤ 1 := by
  simp only [evaluate_policies]
  have hmapne : (policies.map fun name =>
      if (answer name).1 then (1:ℚ)/2 + (if (answer name).2.1 then 25/100 else 0) +
        (if (answer name).2.2 then 25/100 else 0) else 0) ≠ [] := by
    simp [policies]
  have hmem : ∀ x ∈ (policies.map fun name =>
      if (answer name).1 then (1:ℚ)/2 + (if (answer name).2.1 then 25/100 else 0) +
        (if (answer name).2.2 then 25/100 else 0) else 0), 0 ≤ x ∧ x ≤ 1 := by
    intro x hx
    obtain ⟨nm, _, rfl⟩ := List.mem_map.mp hx
    exact policy_item_bounds (answer nm)
  rcases hL : policies.map fun name =>
      if (answer name).1 then (1:ℚ)/2 + (if (answer name).2.1 then 25/100 else 0) +
        (if (answer name).2.2 then 25/100 else 0) else 0 with _ | ⟨a, l⟩
  · exact absurd hL hmapne
  · have hmem' := hL ▸ hmem
    constructor
    · exact q_le_sum_div_length (a := 0) (l := a :: l) (by simp)
        (fun x hx => (hmem' x hx).1)
    · exact q_sum_div_length_le (b := 1) (l := a :: l) (by simp)
        (fun x hx => (hmem' x hx).2)

theorem tool_item_bounds (a : Bool × Bool) :
    0 ≤ ((if a.1 then (1:ℚ)/2 else 0) + (if a.2 then 3/10 else 0) + 2/10) ∧
    ((if a.1 then (1:ℚ)/2 else 0) + (if a.2 then 3/10 else 0) + 2/10) ≤ 1 := by
  split_ifs <;> norm_num

theorem tool_score_bounds (profile : Option EnvironmentProfile)
    (answer : String → Bool × Bool) :
    0 ≤ (evaluate_tools profile answer).1 ∧
    (evaluate_tools profile answer).1 ≤ 1 := by
  rcases profile with _ | p
  · norm_num [evaluate_tools]
  · simp only [evaluate_tools]
    have hmem : ∀ x ∈ (p.security_tools.map fun tool =>
        (if (answer tool).1 then (1:ℚ)/2 else 0) +
          (if (answer tool).2 then 3/10 else 0) + 2/10), 0 ≤ x ∧ x ≤ 1 := by
      intro x hx
      obtain ⟨t, _, rfl⟩ := List.mem_map.mp hx
      exact tool_item_bounds (answer t)
    rcases hL : p.security_tools.map fun tool =>
        (if (answer tool).1 then (1:ℚ)/2 else 0) +
          (if (answer tool).2 then 3/10 else 0) + 2/10 with _ | ⟨a, l⟩
    · exact ⟨le_rfl, zero_le_one⟩
    · have hmem' := hL ▸ hmem
      constructor
      · exact q_le_sum_div_length (a := 0) (l := a :: l) (by simp)
          (fun x hx => (hmem' x hx).1)
      · exact q_sum_div_length_le (b := 1) (l := a :: l) (by simp)
          (fun x hx => (hmem' x hx).2)

theorem alignment_bounds {ps ts : ℚ} (hp0 : 0 ≤ ps) (hp1 : ps ≤ 1)
    (ht0 : 0 ≤ ts) (ht1 : ts ≤ 1) :
    0 ≤ get_policy_alignment_score ps ts ∧
    get_policy_alignment_score ps ts ≤ 1 := by
  simp only [get_policy_alignment_score]
  constructor <;> linarith

theorem timeline_bounds (profile : Option EnvironmentProfile) {e p : ℚ}
    (he0 : 0 ≤ e) (he1 : e ≤ 1) (hp0 : 0 ≤ p) (hp1 : p ≤ 1) :
    0 ≤ calculate_timeline_score profile e p ∧
    calculate_timeline_score profile e p ≤ 1 := by
  rcases profile with _ | q <;> simp only [calculate_timeline_score]
  · constructor <;> linarith
  · split_ifs <;> constructor <;> nlinarith

theorem scenario_la_bounds (sc : Scenario) (lr : List LogAnalysisResult) :
    0 ≤ scenario_log_availability sc lr ∧
    scenario_log_availability sc lr ≤ 1 := by
  simp only [scenario_log_availability]
  rcases h : sc.required_logs with _ | ⟨a, as⟩ <;> simp only [h]
  · norm_num
  · have hlen : (0:ℚ) < ((a :: as).length : ℚ) := by
      exact_mod_cast List.length_pos.mpr (List.cons_ne_nil a as)
    constructor
    · positivity
    · rw [div_le_one hlen]
      exact_mod_cast List.length_filter_le _ _

theorem scenario_result_bounds (sc : Scenario) (lr : List LogAnalysisResult)
    (pr : List PlaybookAnalysisResult) :
    (0 ≤ (test_scenario sc lr pr).log_availability ∧
      (test_scenario sc lr pr).log_availability ≤ 1) ∧
    (0 ≤ (test_scenario sc lr pr).timeline_feasibility ∧
      (test_scenario sc lr pr).timeline_feasibility ≤ 1) ∧
    (0 ≤ (test_scenario sc lr pr).readiness_score ∧
      (test_scenario sc lr pr).readiness_score ≤ 1) := by
  obtain ⟨h0, h1⟩ := scenario_la_bounds sc lr
  simp only [test_scenario]
  refine ⟨⟨h0, h1⟩, ?_, ?_⟩ <;> split_ifs <;> constructor <;> linarith

/-- C4: every score field produced by the scorers lies in `[0,1]`: the log
timestamp/volume/completeness scores, the playbook clarity/feasibility/
completeness scores, the scenario log-availability/timeline-feasibility/
readiness scores, the policy, tool and policy-alignment scores, and the
four component scores and overall score of a generated assessment. -/
theorem all_scores_in_unit_interval :
    (∀ (p : EnvironmentProfile) (s : String),
      (0 ≤ (analyze_log_source p s).timestamp_consistency ∧
        (analyze_log_source p s).timestamp_consistency ≤ 1) ∧
      (0 ≤ (analyze_log_source p s).volume_score ∧
        (analyze_log_source p s).volume_score ≤ 1) ∧
      (0 ≤ (analyze_log_source p s).completeness_score ∧
        (analyze_log_source p s).completeness_score ≤ 1)) ∧
    (∀ n : String,
      (0 ≤ (evaluate_playbook n).clarity_score ∧
        (evaluate_playbook n).clarity_score ≤ 1) ∧
      (0 ≤ (evaluate_playbook n).feasibility_score ∧
        (evaluate_playbook n).feasibility_score ≤ 1) ∧
      (0 ≤ (evaluate_playbook n).completeness_score ∧
        (evaluate_playbook n).completeness_score ≤ 1)) ∧
    (∀ (sc : Scenario) (lr : List LogAnalysisResult)
        (pr : List PlaybookAnalysisResult),
      (0 ≤ (test_scenario sc lr pr).log_availability ∧
        (test_scenario sc lr pr).log_availability ≤ 1) ∧
      (0 ≤ (test_scenario sc lr pr).timeline_feasibility ∧
        (test_scenario sc lr pr).timeline_feasibility ≤ 1) ∧
      (0 ≤ (test_scenario sc lr pr).readiness_score ∧
        (test_scenario sc lr pr).readiness_score ≤ 1)) ∧
    (∀ answer : String → Bool × Bool × Bool,
      0 ≤ (evaluate_policies answer).1 ∧ (evaluate_policies answer).1 ≤ 1) ∧
    (∀ (prof : Option EnvironmentProfile) (answer : String → Bool × Bool),
      0 ≤ (evaluate_tools prof answer).1 ∧ (evaluate_tools prof answer).1 ≤ 1) ∧
    (∀ (polAns : String → Bool × Bool × Bool)
        (prof : Option EnvironmentProfile) (toolAns : String → Bool × Bool),
      0 ≤ get_policy_alignment_score (evaluate_policies polAns).1
            (evaluate_tools prof toolAns).1 ∧
        get_policy_alignment_score (evaluate_policies polAns).1
            (evaluate_tools prof toolAns).1 ≤ 1) ∧
    (∀ (prof : EnvironmentProfile) (sources names : List String)
        (polAns : String → Bool × Bool × Bool) (toolAns : String → Bool × Bool)
        (bns : List String) (scns : List ScenarioResult)
        (prev : Option ReadinessAssessment),
      (0 ≤ (assessment_from_modules prof sources names polAns toolAns bns scns
            prev).overall_score ∧
        (assessment_from_modules prof sources names polAns toolAns bns scns
            prev).overall_score ≤ 1) ∧
      (0 ≤ (assessment_from_modules prof sources names polAns toolAns bns scns
            prev).evidence_availability ∧
        (assessment_from_modules prof sources names polAns toolAns bns scns
            prev).evidence_availability ≤ 1) ∧
      (0 ≤ (assessment_from_modules prof sources names polAns toolAns bns scns
            prev).timeline_reconstruction ∧
        (assessment_from_modules prof sources names polAns toolAns bns scns
            prev).timeline_reconstruction ≤ 1) ∧
      (0 ≤ (assessment_from_modules prof sources names polAns toolAns bns scns
            prev).playbook_effectiveness ∧
        (assessment_from_modules prof sources names polAns toolAns bns scns
            prev).playbook_effectiveness ≤ 1) ∧
      (0 ≤ (assessment_from_modules prof sources names polAns toolAns bns scns
            prev).policy_alignment ∧
        (assessment_from_modules prof sources names polAns toolAns bns scns
            prev).policy_alignment ≤ 1)) := by
  refine ⟨?_, ?_, ?_, ?_, ?_, ?_, ?_⟩
  · intro p s
    simp only [analyze_log_source]
    split_ifs <;> norm_num
  · exact playbook_component_bounds
  · exact scenario_result_bounds
  · exact policy_score_bounds
  · exact tool_score_bounds
  · intro polAns prof toolAns
    obtain ⟨hP0, hP1⟩ := policy_score_bounds polAns
    obtain ⟨hT0, hT1⟩ := tool_score_bounds prof toolAns
    exact alignment_bounds hP0 hP1 hT0 hT1
  · intro prof sources names polAns toolAns bns scns prev
    obtain ⟨hE0, hE1⟩ := evidence_map_bounds01 prof sources
    obtain ⟨hB0, hB1⟩ := effectiveness_map_bounds names
    obtain ⟨hP0, hP1⟩ := policy_score_bounds polAns
    obtain ⟨hT0, hT1⟩ := tool_score_bounds (some prof) toolAns
    obtain ⟨hA0, hA1⟩ := alignment_bounds hP0 hP1 hT0 hT1
    obtain ⟨hL0, hL1⟩ := timeline_bounds (some prof) hE0 hE1 hA0 hA1
    simp only [assessment_from_modules, generate_assessment]
    refine ⟨⟨by linarith, by linarith⟩, ⟨hE0, hE1⟩, ⟨hL0, hL1⟩,
      ⟨hB0, hB1⟩, ⟨hA0, hA1⟩⟩

/-- C10: for any non-empty set of analyzed log sources the evidence score
lies in `[11/15, 4/5]`, so the critical "Insufficient log coverage" gap
(which requires an evidence score below 0.60) cannot appear. -/
theorem nonempty_evidence_bounds_no_gap (p : EnvironmentProfile)
    (sources : List String) (pr : List PlaybookAnalysisResult) (ps ts : ℚ)
    (bns : List String) (scns : List ScenarioResult) (hne : sources ≠ []) :
    11/15 ≤ get_evidence_availability_score
        (sources.map (analyze_log_source p)) ∧
    get_evidence_availability_score (sources.map (analyze_log_source p))
        ≤ 4/5 ∧
    "Insufficient log coverage for effective incident investigation" ∉
      (prioritize_gaps (sources.map (analyze_log_source p)) pr ps ts bns
        scns).1 := by
  obtain ⟨h1, h2⟩ := evidence_map_bounds p sources hne
  refine ⟨h1, h2, ?_⟩
  simp only [prioritize_gaps]
  rw [if_neg (by linarith :
    ¬ get_evidence_availability_score (sources.map (analyze_log_source p))
      < 60/100)]
  have hg2 : "Insufficient log coverage for effective incident investigation"
      ≠ "Incident response playbooks lack clarity or completeness" := by
    decide
  have hg3 : "Insufficient log coverage for effective incident investigation"
      ≠ "Security policies inadequate for effective incident response" := by
    decide
  split_ifs <;> simp [hg2, hg3]

theorem nonempty_evidence_bounds_no_gap_witness :
    11/15 ≤ get_evidence_availability_score
        ((["Syslog"] : List String).map (analyze_log_source sampleProfile)) ∧
    get_evidence_availability_score
        ((["Syslog"] : List String).map (analyze_log_source sampleProfile))
        ≤ 4/5 ∧
    "Insufficient log coverage for effective incident investigation" ∉
      (prioritize_gaps
        ((["Syslog"] : List String).map (analyze_log_source sampleProfile))
        [] 0 0 [] []).1 :=
  nonempty_evidence_bounds_no_gap sampleProfile ["Syslog"] [] 0 0 [] []
    (by simp)

/-- C2 (code bug): on a first assessment run (`self.assessment` still
`None`) the two timeline recommendations are appended even though the
timeline score computed for this assessment is 0.86 ≥ 0.70 — the code
reads the timeline score of the previously stored assessment, which does
not exist yet, instead of the one it just computed. -/
theorem first_run_timeline_recommendations :
    (assessment_from_modules sampleProfile ["Windows Event Logs"]
        ["Generic Incident"] (fun _ => (true, true, true))
        (fun _ => (true, true)) [] [] none).timeline_reconstruction
      = 43/50 ∧
    ¬((assessment_from_modules sampleProfile ["Windows Event Logs"]
        ["Generic Incident"] (fun _ => (true, true, true))
        (fun _ => (true, true)) [] [] none).timeline_reconstruction
      < 70/100) ∧
    "Improve log correlation and timestamp synchronization" ∈
      (assessment_from_modules sampleProfile ["Windows Event Logs"]
        ["Generic Incident"] (fun _ => (true, true, true))
        (fun _ => (true, true)) [] [] none).recommendations ∧
    "Deploy network traffic analysis (NTA) for comprehensive visibility" ∈
      (assessment_from_modules sampleProfile ["Windows Event Logs"]
        ["Generic Incident"] (fun _ => (true, true, true))
        (fun _ => (true, true)) [] [] none).recommendations := by
  norm_num [assessment_from_modules, generate_assessment,
    generate_recommendations, get_evidence_availability_score,
    get_playbook_effectiveness_score, analyze_log_source, evaluate_playbook,
    evaluate_policies, evaluate_tools, policies, get_policy_alignment_score,
    calculate_timeline_score, sampleProfile, List.take,
    (by decide : pyContains "Windows Event Logs" "Windows" = true),
    (by decide : pyContains "Windows Event Logs" "Application" = false),
    (by decide : pyContains "Windows Event Logs" "Custom" = false),
    (by decide : pyContains "Generic Incident" "Malware" = false),
    (by decide : pyContains "Generic Incident" "Ransomware" = false),
    (by decide : pyContains "Generic Incident" "Phishing" = false),
    (by decide : pyContains "Generic Incident" "Data Breach" = false)]
